import Mathlib

/-!
Verification of the todoist-mcp repository's request-dispatch and
view-aggregation engine against its natural-language specification.

The embedding covers:
* the data model (`Task`, `Due`, `ContentBlock`, `Envelope`),
* the `todoist_get_tasks_by_filter` tool of `src/server.ts` (zod input
  schema, zero-result message, task formatting),
* the `TodoistMCPServer` class embedded in the repository's design
  document (daily/weekly planning views, tool-call dispatch, prompt
  dispatch).

Remote calls are modelled by passing their outcome as an explicit
`Except String` value: `Except.error m` stands for a rejected promise /
thrown exception carrying message `m`.
-/

set_option linter.unusedVariables false

namespace TodoistMcp

/-- The `due` structure of a Todoist task: `date` is the calendar-date key
(`YYYY-MM-DD`), `string` is the human-readable display string. -/
structure Due where
  date : String
  string : String
  deriving DecidableEq

/-- A Todoist task as consumed by the server.  Optional string fields use
`""` for the JavaScript falsy case (absent or empty), matching the
truthiness tests in the source (`if (task.description)` etc.);
`due` uses `Option` since the source tests only presence (`if (task.due)`). -/
structure Task where
  id : String
  content : String
  description : String := ""
  due : Option Due := none
  priority : Nat := 1
  labels : List String := []
  projectId : String := ""
  deriving DecidableEq

/-- One `{type, text}` block of an MCP response. -/
structure ContentBlock where
  type : String
  text : String
  deriving DecidableEq

/-- The MCP response envelope `{content, isError}`.  In the source a
missing `isError` field is falsy, modelled by the default `false`. -/
structure Envelope where
  content : List ContentBlock
  isError : Bool := false
  deriving DecidableEq

/-! ### Task formatting (src/server.ts, map callback building `formattedTasks`) -/

/-- `priorityLabels[task.priority] || task.priority` from `src/server.ts`:
the mapping `{2: "Low", 3: "Medium", 4: "High"}` with fallback to the raw
numeric value rendered in decimal. -/
def priorityLabel (p : Nat) : String :=
  if p == 2 then "Low"
  else if p == 3 then "Medium"
  else if p == 4 then "High"
  else toString p

/-- `if (task.description) parts.push(...)` — emitted only for a present,
non-empty description. -/
def descriptionLines (t : Task) : List String :=
  if t.description ≠ "" then ["  Description: " ++ t.description] else []

/-- `if (task.due) parts.push(...)` — emitted only when `due` is present. -/
def dueLines (t : Task) : List String :=
  match t.due with
  | some d => ["  Due: " ++ d.string]
  | none => []

/-- `if (task.priority > 1) parts.push(...)` with the label mapping. -/
def priorityLines (t : Task) : List String :=
  if t.priority > 1 then ["  Priority: " ++ priorityLabel t.priority] else []

/-- `if (task.labels && task.labels.length > 0) parts.push(...)`. -/
def labelLines (t : Task) : List String :=
  if t.labels ≠ [] then ["  Labels: " ++ String.intercalate ", " t.labels] else []

/-- `if (task.projectId) parts.push(...)`. -/
def projectLines (t : Task) : List String :=
  if t.projectId ≠ "" then ["  Project ID: " ++ t.projectId] else []

/-- The `parts` array built by the formatter in `src/server.ts`
(lines 66–91): the bullet line with content and id always first, then the
conditional field lines in source order. -/
def formatTaskParts (t : Task) : List String :=
  ["• " ++ t.content ++ " (ID: " ++ t.id ++ ")"]
    ++ descriptionLines t ++ dueLines t ++ priorityLines t
    ++ labelLines t ++ projectLines t

/-- `parts.join("\n")` — the display text of one task. -/
def formatTask (t : Task) : String :=
  String.intercalate "\n" (formatTaskParts t)

/-! ### The todoist_get_tasks_by_filter tool (src/server.ts) -/

/-- A `{type: "text", text: ...}` content block as constructed inline
throughout the source. -/
def textBlock (s : String) : ContentBlock :=
  { type := "text", text := s }

/-- The handler body of `todoist_get_tasks_by_filter` in `src/server.ts`:
the outcome of `todoistClient.getTasks({filter: query, lang})` is passed in
as `remote` (`Except.error` = thrown/rejected). -/
def getTasksByFilterHandler (query : String) (lang : Option String)
    (remote : Except String (List Task)) : Envelope :=
  match remote with
  | Except.error e =>
      { content := [textBlock ("Error fetching tasks: " ++ e)], isError := true }
  | Except.ok tasks =>
      if tasks.length == 0 then
        { content := [textBlock ("No tasks found matching filter: \"" ++ query ++ "\"")] }
      else
        { content := [textBlock ("Found " ++ toString tasks.length
            ++ " tasks with filter \"" ++ query ++ "\":\n\n"
            ++ String.intercalate "\n\n" (tasks.map formatTask))] }

/-- The declared zod input schema constraint on the filter-query argument:
`z.string().min(1).max(1024)` (`src/server.ts` lines 37–40). -/
def filterQuerySchemaAccepts (s : String) : Bool :=
  1 ≤ s.length && s.length ≤ 1024

/-- The schema-validated tool invocation: the MCP layer validates the
arguments against the declared schema before the handler runs; a failing
validation rejects the call and the handler (and its remote call) never
runs. -/
def todoistGetTasksByFilterTool (query : String) (lang : Option String)
    (remote : Except String (List Task)) : Except String Envelope :=
  if filterQuerySchemaAccepts query then
    Except.ok (getTasksByFilterHandler query lang remote)
  else
    Except.error "invalid arguments"

/-! ### Daily planning view (design document, `generateDailyPlanningView`) -/

/-- `tasks.map((task) => `- ${task.content}`).join("\n") + "\n\n"` — the
bullet-list rendering shared by the view sections. -/
def taskLines (ts : List Task) : String :=
  String.intercalate "\n" (ts.map (fun t => "- " ++ t.content)) ++ "\n\n"

/-- `todayTasks.filter((t) => t.priority === 4)` — the urgent bucket. -/
def urgentTasks (todayTasks : List Task) : List Task :=
  todayTasks.filter (fun t => t.priority == 4)

/-- `todayTasks.filter((t) => t.priority === 3)` — the high bucket. -/
def highTasks (todayTasks : List Task) : List Task :=
  todayTasks.filter (fun t => t.priority == 3)

/-- `todayTasks.filter((t) => t.priority <= 2)` — the normal bucket. -/
def normalTasks (todayTasks : List Task) : List Task :=
  todayTasks.filter (fun t => decide (t.priority ≤ 2))

/-- The trailing `**Summary:** ${overdueTasks.length} overdue, ${todayTasks.length} today`
line of the daily view. -/
def summaryLine (overdueCount todayCount : Nat) : String :=
  "**Summary:** " ++ toString overdueCount ++ " overdue, "
    ++ toString todayCount ++ " today"

/-- The rendering part of `generateDailyPlanningView`, once both filtered
queries have succeeded with `overdueTasks` and `todayTasks`. -/
def dailyPlanningView (overdueTasks todayTasks : List Task) : String :=
  let content := "# Daily Planning Overview\n\n"
  let content :=
    if overdueTasks.length > 0 then
      content ++ "## 🚨 Overdue Tasks\n" ++ taskLines overdueTasks
    else content
  let content :=
    if todayTasks.length > 0 then
      let urgent := urgentTasks todayTasks
      let high := highTasks todayTasks
      let normal := normalTasks todayTasks
      let c := content ++ "## 📅 Today's Tasks\n"
      let c := if urgent.length > 0 then c ++ "### 🔴 Urgent\n" ++ taskLines urgent else c
      let c := if high.length > 0 then c ++ "### 🟡 High Priority\n" ++ taskLines high else c
      let c := if normal.length > 0 then c ++ "### ⚪ Normal\n" ++ taskLines normal else c
      c
    else
      content ++ "## 📅 Today's Tasks\nNo tasks scheduled for today.\n\n"
  content ++ summaryLine overdueTasks.length todayTasks.length

/-- `generateDailyPlanningView` including its two-way fan-out
`Promise.all([getTasksByFilter("today"), getTasksByFilter("overdue")])`:
each query outcome is passed as an `Except`; if either rejects, the
combined promise rejects with one of the rejection messages and no
document is produced (fail-fast, no partial rendering). -/
def generateDailyPlanningViewE (todayRes overdueRes : Except String (List Task)) :
    Except String String :=
  match todayRes, overdueRes with
  | Except.ok todayTasks, Except.ok overdueTasks =>
      Except.ok (dailyPlanningView overdueTasks todayTasks)
  | Except.error e, _ => Except.error e
  | _, Except.error e => Except.error e

/-! ### Weekly planning view (design document, `generateWeeklyPlanningView`) -/

/-- Adding one date key to the key list of the `tasksByDate` object:
a JavaScript object keeps the first-insertion order of its (non-index)
string keys, and `if (!tasksByDate[dateKey]) tasksByDate[dateKey] = []`
inserts the key only once. -/
def insertKey (ks : List String) (k : String) : List String :=
  if k ∈ ks then ks else ks ++ [k]

/-- The key list of `tasksByDate` after the `weekTasks.forEach` loop:
tasks without a due date are skipped, the others contribute their
`due.date` key in first-occurrence order. -/
def objectKeys (tasks : List Task) : List String :=
  tasks.foldl
    (fun ks t =>
      match t.due with
      | some d => insertKey ks d.date
      | none => ks)
    []

/-- The group `tasksByDate[date]`: the pushes preserve query order, so the
group equals the in-order filter of the tasks due on `date`. -/
def tasksOnDate (tasks : List Task) (date : String) : List Task :=
  tasks.filter (fun t =>
    match t.due with
    | some d => d.date == date
    | none => false)

/-- `Object.keys(tasksByDate).sort()`: the default JavaScript sort compares
strings lexicographically, embedded as an insertion sort under the
lexicographic order on `String`. -/
def sortedDates (tasks : List Task) : List String :=
  List.insertionSort (· ≤ ·) (objectKeys tasks)

/-- Days since 0000-03-01 of year/month/day in the proleptic Gregorian
calendar (valid for the post-1582 dates the view handles). -/
def daysFromCivil (y m d : Nat) : Nat :=
  let yAdj := if m ≤ 2 then y - 1 else y
  let era := yAdj / 400
  let yoe := yAdj % 400
  let mp := (m + 9) % 12
  let doy := (153 * mp + 2) / 5 + d - 1
  let doe := yoe * 365 + yoe / 4 - yoe / 100 + doy
  era * 146097 + doe

/-- `new Date(date).toLocaleDateString("en-US", { weekday: "long" })` for an
ISO `YYYY-MM-DD` key, under a UTC host timezone (date-only ISO strings are
parsed as UTC midnight). -/
def weekdayName (date : String) : String :=
  let y := ((date.take 4).toNat?).getD 0
  let m := (((date.drop 5).take 2).toNat?).getD 0
  let d := (((date.drop 8).take 2).toNat?).getD 0
  let names := ["Sunday", "Monday", "Tuesday", "Wednesday", "Thursday",
    "Friday", "Saturday"]
  names.getD ((daysFromCivil y m d + 3) % 7) "Sunday"

/-- The trailing `**Total this week:** ${weekTasks.length} tasks` line. -/
def totalLine (n : Nat) : String :=
  "**Total this week:** " ++ toString n ++ " tasks"

/-- One rendered date section: heading (weekday, date, optional "(Today)"
marker) followed by the group's task lines. -/
def dateSection (tasks : List Task) (todayKey date : String) : String :=
  "## " ++ weekdayName date ++ ", " ++ date
    ++ (if date == todayKey then " (Today)" else "") ++ "\n"
    ++ taskLines (tasksOnDate tasks date)

/-- The rendering part of `generateWeeklyPlanningView` once the `"7 days"`
query has succeeded; `todayKey` models the ambient current date
`new Date().toISOString().split("T")[0]`. -/
def weeklyPlanningView (todayKey : String) (weekTasks : List Task) : String :=
  let content := "# Weekly Planning Overview\n\n"
  if weekTasks.length == 0 then
    content ++ "No tasks scheduled for this week."
  else
    let content :=
      (sortedDates weekTasks).foldl
        (fun c date => c ++ dateSection weekTasks todayKey date) content
    content ++ totalLine weekTasks.length

/-- Number of task lines rendered inside the weekly view's date sections. -/
def sectionTaskCount (tasks : List Task) : Nat :=
  ((sortedDates tasks).map (fun date => (tasksOnDate tasks date).length)).sum

/-! ### Tool-call dispatch (design document, `setupToolHandlers`) -/

/-- The operation names of the `switch` statement in the
`CallToolRequestSchema` handler. -/
def toolNames : List String :=
  ["todoist_add_task", "todoist_get_tasks", "todoist_get_tasks_by_filter",
   "todoist_update_task", "todoist_close_task", "todoist_reopen_task",
   "todoist_delete_task", "todoist_get_projects", "todoist_quick_add_task"]

/-- The `CallToolRequestSchema` handler: the `switch` selects the handler
method for a registered name (its outcome, success or thrown failure, is
given by `handlers`), the `default` branch throws `Unknown tool: <name>`,
and the surrounding `try/catch` converts any thrown failure into an
`{content: [{type:"text", text: "Error: " + message}], isError: true}`
envelope. -/
def callToolDispatch (handlers : String → Except String Envelope)
    (name : String) : Envelope :=
  let result : Except String Envelope :=
    if name ∈ toolNames then handlers name
    else Except.error ("Unknown tool: " ++ name)
  match result with
  | Except.ok env => env
  | Except.error msg =>
      { content := [textBlock ("Error: " ++ msg)], isError := true }

/-! ### Prompt dispatch (design document, `setupPromptHandlers`) -/

/-- One `{role, content}` message of a prompt result. -/
structure PromptMessage where
  role : String
  content : ContentBlock
  deriving DecidableEq

/-- The `{description, messages}` result of a prompt handler. -/
structure PromptResult where
  description : String
  messages : List PromptMessage
  deriving DecidableEq

/-- `generateDailyPlannerPrompt`: awaits the daily view (whose outcome is
passed as an `Except`) and embeds it into the fixed single-user-message
template; a failing view makes the handler throw. -/
def generateDailyPlannerPrompt (dailyView : Except String String) :
    Except String PromptResult :=
  dailyView.map (fun v =>
    let msgText :=
      "I need help planning my day. Here's my current task situation:\n\n"
        ++ v
        ++ "\n\nPlease help me:\n1. **Prioritize** - What should I focus on first?\n2. **Schedule** - How should I organize my day?\n3. **Capacity** - Is this realistic for today?\n4. **Actions** - What specific steps should I take?\n\nProvide a concrete daily plan with time estimates and suggest any Todoist commands I should run."
    { description := "Daily planning assistant",
      messages := [{ role := "user", content := textBlock msgText }] })

/-- `generateTaskManagerPrompt`: awaits the weekly view and embeds it plus
an optional `Specific context:` suffix into the fixed template. -/
def generateTaskManagerPrompt (weeklyView : Except String String)
    (context : Option String) : Except String PromptResult :=
  weeklyView.map (fun v =>
    let contextText :=
      match context with
      | some c => "\n\nSpecific context: " ++ c
      | none => ""
    let msgText :=
      "I need help managing my tasks effectively. Here's my current workload:\n\n"
        ++ v ++ contextText
        ++ "\n\nPlease help me:\n1. **Organization** - How can I better organize these tasks?\n2. **Workflow** - What's the most efficient approach?\n3. **Tools** - What Todoist features/commands would help?\n4. **Planning** - How should I approach this workload?\n\nGive me actionable advice and specific Todoist commands I can use."
    { description := "Task management assistant",
      messages := [{ role := "user", content := textBlock msgText }] })

/-- The `GetPromptRequestSchema` handler: a `switch` over the prompt name
with `default: throw new Error("Unknown prompt: " + name)`.  Unlike the
tool-call handler there is no surrounding `try/catch`, so a thrown failure
(modelled as `Except.error`) escapes the handler to the protocol layer. -/
def getPromptDispatch (dailyView weeklyView : Except String String)
    (name : String) (context : Option String) : Except String PromptResult :=
  if name == "daily_planner" then generateDailyPlannerPrompt dailyView
  else if name == "task_manager" then generateTaskManagerPrompt weeklyView context
  else Except.error ("Unknown prompt: " ++ name)

/-! ### Substring testing helper (for stating rendering properties) -/

/-- `contiguousIn pat l` holds when `pat` occurs contiguously in `l`. -/
def contiguousIn (pat : List Char) : List Char → Bool
  | [] => pat == []
  | c :: rest => pat.isPrefixOf (c :: rest) || contiguousIn pat rest

/-- `strContains s pat`: `pat` occurs as a contiguous substring of `s`. -/
def strContains (s pat : String) : Bool :=
  contiguousIn pat.data s.data

/-! ### Sample inputs used to instantiate the verified properties -/

/-- The single today-task of the spec's end-to-end daily scenario. -/
def taskA : Task :=
  { id := "1", content := "A", priority := 4 }

/-- A task with every optional field populated. -/
def sampleFull : Task :=
  { id := "7", content := "T", description := "d",
    due := some { date := "2024-05-01", string := "May 1" },
    priority := 3, labels := ["x", "y"], projectId := "p9" }

/-- A task due on 2024-05-01. -/
def sampleDueA : Task :=
  { id := "3", content := "C", due := some { date := "2024-05-01", string := "May 1" } }

/-- A task due on 2024-05-02. -/
def sampleDueB : Task :=
  { id := "4", content := "D", due := some { date := "2024-05-02", string := "May 2" } }

/-- A task with no due date. -/
def sampleNoDue : Task :=
  { id := "5", content := "E" }

/-! ## Verified properties -/

/-- C1: for every list of tasks returned by the daily view's "today" query,
with each task's priority in {1,2,3,4}, the urgent (priority 4), high
(priority 3) and normal (priority ≤ 2) buckets form a disjoint cover of the
today set: every task appears in exactly one bucket, determined solely by
its priority field. -/
theorem daily_buckets_disjoint_cover (todayTasks : List Task) (t : Task)
    (ht : t ∈ todayTasks) (hp : 1 ≤ t.priority ∧ t.priority ≤ 4) :
    ((t ∈ urgentTasks todayTasks ↔ t.priority = 4)
      ∧ (t ∈ highTasks todayTasks ↔ t.priority = 3)
      ∧ (t ∈ normalTasks todayTasks ↔ t.priority ≤ 2))
    ∧ ((t ∈ urgentTasks todayTasks ∧ t ∉ highTasks todayTasks ∧ t ∉ normalTasks todayTasks)
      ∨ (t ∉ urgentTasks todayTasks ∧ t ∈ highTasks todayTasks ∧ t ∉ normalTasks todayTasks)
      ∨ (t ∉ urgentTasks todayTasks ∧ t ∉ highTasks todayTasks ∧ t ∈ normalTasks todayTasks)) := by
  have hu : t ∈ urgentTasks todayTasks ↔ t.priority = 4 := by
    simp [urgentTasks, List.mem_filter, ht]
  have hh : t ∈ highTasks todayTasks ↔ t.priority = 3 := by
    simp [highTasks, List.mem_filter, ht]
  have hn : t ∈ normalTasks todayTasks ↔ t.priority ≤ 2 := by
    simp [normalTasks, List.mem_filter, ht]
  refine ⟨⟨hu, hh, hn⟩, ?_⟩
  simp only [hu, hh, hn]
  omega

/-- Witness for C1 at a concrete priority-4 task. -/
theorem daily_buckets_disjoint_cover_witness :
    taskA ∈ [taskA] ∧ (1 ≤ taskA.priority ∧ taskA.priority ≤ 4)
    ∧ (taskA ∈ urgentTasks [taskA] ∧ taskA ∉ highTasks [taskA]
        ∧ taskA ∉ normalTasks [taskA]) := by
  have h := daily_buckets_disjoint_cover [taskA] taskA (by decide) (by decide)
  refine ⟨by decide, by decide, ?_⟩
  rcases h.2 with h4 | h3 | h2
  · exact h4
  · exact absurd (h.1.2.1.mp h3.2.1) (by decide)
  · exact absurd (h.1.2.2.mp h2.2.2) (by decide)

/-- C2: if either of the daily view's two fanned-out filtered queries
fails, the daily view operation as a whole fails (the combined promise
rejects) and no document string is produced. -/
theorem daily_fanout_fail (todayRes overdueRes : Except String (List Task)) :
    (∀ e, overdueRes = Except.error e →
      ∃ msg, generateDailyPlanningViewE todayRes overdueRes = Except.error msg)
    ∧ (∀ e, todayRes = Except.error e →
      ∃ msg, generateDailyPlanningViewE todayRes overdueRes = Except.error msg) := by
  constructor
  · rintro e rfl
    cases todayRes with
    | ok l => exact ⟨e, rfl⟩
    | error e2 => exact ⟨e2, rfl⟩
  · rintro e rfl
    cases overdueRes with
    | ok l => exact ⟨e, rfl⟩
    | error e2 => exact ⟨e, rfl⟩

/-- Witness for C2: the "overdue" query rejects while the "today" query
succeeds, and the whole daily view rejects. -/
theorem daily_fanout_fail_witness :
    (Except.error "network error" : Except String (List Task)) = Except.error "network error"
    ∧ ∃ msg, generateDailyPlanningViewE (Except.ok []) (Except.error "network error")
        = Except.error msg :=
  ⟨rfl, (daily_fanout_fail (Except.ok []) (Except.error "network error")).1
    "network error" rfl⟩

/-- C4: for every filter string, when the remote query behind
`todoist_get_tasks_by_filter` returns zero tasks, the handler returns an
envelope with exactly one `text` block whose text names the filter used,
and `isError` is not set to true. -/
theorem get_tasks_by_filter_zero_results (query : String) (lang : Option String) :
    ∃ b : ContentBlock,
      (getTasksByFilterHandler query lang (Except.ok [])).content = [b]
      ∧ b.type = "text"
      ∧ b.text = "No tasks found matching filter: \"" ++ query ++ "\""
      ∧ (getTasksByFilterHandler query lang (Except.ok [])).isError = false :=
  ⟨textBlock ("No tasks found matching filter: \"" ++ query ++ "\""),
    rfl, rfl, rfl, rfl⟩

/-- C6: tool-call dispatch of an unregistered operation name, and any
failure thrown by a registered handler or its remote calls, both produce
the `{content:[{type:"text", text:"Error: " + message}], isError:true}`
envelope; the dispatcher is total (return type `Envelope`), so no failure
escapes it uncaught. -/
theorem tool_dispatch_errors (handlers : String → Except String Envelope)
    (name : String) :
    (name ∉ toolNames →
      callToolDispatch handlers name
        = { content := [textBlock ("Error: " ++ ("Unknown tool: " ++ name))],
            isError := true })
    ∧ (∀ msg, name ∈ toolNames → handlers name = Except.error msg →
      callToolDispatch handlers name
        = { content := [textBlock ("Error: " ++ msg)], isError := true }) := by
  constructor
  · intro h
    simp [callToolDispatch, h]
  · intro msg hmem herr
    simp [callToolDispatch, hmem, herr]

/-- Witness for C6 at an unregistered name and at a registered name whose
handler throws. -/
theorem tool_dispatch_errors_witness :
    ("nope" ∉ toolNames
      ∧ callToolDispatch (fun _ => Except.error "boom") "nope"
        = { content := [textBlock ("Error: " ++ ("Unknown tool: " ++ "nope"))],
            isError := true })
    ∧ ("todoist_get_projects" ∈ toolNames
      ∧ callToolDispatch (fun _ => Except.error "boom") "todoist_get_projects"
        = { content := [textBlock ("Error: " ++ "boom")], isError := true }) :=
  ⟨⟨by decide, (tool_dispatch_errors (fun _ => Except.error "boom") "nope").1 (by decide)⟩,
   ⟨by decide, (tool_dispatch_errors (fun _ => Except.error "boom") "todoist_get_projects").2
      "boom" (by decide) rfl⟩⟩

/-- C8: the declared input schema of `todoist_get_tasks_by_filter`
constrains the filter-query argument to 1–1024 characters, so a string of
length 0 or above 1024 is rejected by validation and the handler never
runs. -/
theorem filter_schema_bounds (query : String) :
    (filterQuerySchemaAccepts query = true ↔ 1 ≤ query.length ∧ query.length ≤ 1024)
    ∧ (query.length = 0 ∨ query.length > 1024 →
      ∀ lang remote, todoistGetTasksByFilterTool query lang remote
        = Except.error "invalid arguments") := by
  have hiff : filterQuerySchemaAccepts query = true
      ↔ 1 ≤ query.length ∧ query.length ≤ 1024 := by
    simp [filterQuerySchemaAccepts]
  refine ⟨hiff, ?_⟩
  intro h lang remote
  have hno : ¬ filterQuerySchemaAccepts query = true := by
    rw [hiff]; omega
  unfold todoistGetTasksByFilterTool
  rw [if_neg hno]

/-- Witness for C8 at the empty filter string. -/
theorem filter_schema_bounds_witness :
    ("" : String).length = 0
    ∧ todoistGetTasksByFilterTool "" none (Except.ok [])
        = Except.error "invalid arguments" :=
  ⟨rfl, (filter_schema_bounds "").2 (Or.inl rfl) none (Except.ok [])⟩

/-- C5 counterexample: the claim says an unknown prompt name is surfaced
the same way as an unknown operation name — as a normal error envelope
that never escapes the dispatcher.  In the code the `GetPromptRequestSchema`
handler has no `try/catch`: at the concrete name `"bogus"` the dispatch
outcome is a thrown `Unknown prompt` error escaping the handler
(`Except.error`, `isOk = false`), not a returned envelope. -/
theorem prompt_dispatch_unknown_counterexample :
    (getPromptDispatch (Except.ok "") (Except.ok "") "bogus" none).isOk = false
    ∧ getPromptDispatch (Except.ok "") (Except.ok "") "bogus" none
        = Except.error ("Unknown prompt: " ++ "bogus") :=
  ⟨rfl, rfl⟩

/-- C5 amended: for every prompt request whose name is not a registered
prompt name, the prompt handler throws an `Unknown prompt: <name>` error
which — unlike the unknown-tool case — is not caught inside the
repository's handler code and escapes to the protocol layer. -/
theorem prompt_dispatch_unknown_throws (dailyView weeklyView : Except String String)
    (name : String) (context : Option String)
    (h1 : name ≠ "daily_planner") (h2 : name ≠ "task_manager") :
    getPromptDispatch dailyView weeklyView name context
      = Except.error ("Unknown prompt: " ++ name) := by
  simp [getPromptDispatch, h1, h2]

/-- Witness for the amended C5 at the concrete unregistered name "nope". -/
theorem prompt_dispatch_unknown_throws_witness :
    ("nope" : String) ≠ "daily_planner" ∧ ("nope" : String) ≠ "task_manager"
    ∧ getPromptDispatch (Except.ok "") (Except.ok "") "nope" none
        = Except.error ("Unknown prompt: " ++ "nope") :=
  ⟨by decide, by decide,
    prompt_dispatch_unknown_throws (Except.ok "") (Except.ok "") "nope" none
      (by decide) (by decide)⟩

/-- C9: the daily view always ends with the one-line numeric summary
giving the overdue and today counts; and in the concrete scenario
overdue = [], today = [{content: "A", priority: 4}], the rendered view has
no overdue section, exactly one urgent-bucket line "- A", and the summary
"0 overdue, 1 today". -/
theorem daily_view_summary (overdueTasks todayTasks : List Task) :
    (∃ p, dailyPlanningView overdueTasks todayTasks
        = p ++ summaryLine overdueTasks.length todayTasks.length)
    ∧ dailyPlanningView [] [taskA]
        = "# Daily Planning Overview\n\n## 📅 Today's Tasks\n### 🔴 Urgent\n- A\n\n**Summary:** 0 overdue, 1 today"
    ∧ strContains (dailyPlanningView [] [taskA]) "Overdue" = false
    ∧ (urgentTasks [taskA]).map (fun t => "- " ++ t.content) = ["- A"]
    ∧ strContains (dailyPlanningView [] [taskA]) "0 overdue, 1 today" = true := by
  refine ⟨⟨_, rfl⟩, by decide, by decide, by decide, by decide⟩

/-- C10: for every non-empty weekly query result, the weekly view ends
with a total-count line reporting the length of the entire result; a task
lacking a due date belongs to no date section; and on a concrete input
with one dated and one undated task the reported total (2) exceeds the
number of task lines rendered in the date sections (1). -/
theorem weekly_total_counts_all (todayKey : String) (weekTasks : List Task)
    (h : weekTasks ≠ []) :
    (∃ p, weeklyPlanningView todayKey weekTasks = p ++ totalLine weekTasks.length)
    ∧ (∀ t ∈ weekTasks, t.due = none → ∀ date, t ∉ tasksOnDate weekTasks date)
    ∧ sectionTaskCount [sampleDueA, sampleNoDue] = 1
    ∧ ([sampleDueA, sampleNoDue] : List Task).length = 2 := by
  refine ⟨?_, ?_, by decide, rfl⟩
  · unfold weeklyPlanningView
    rw [if_neg (by simp [h])]
    exact ⟨_, rfl⟩
  · intro t ht hdue date
    simp [tasksOnDate, List.mem_filter, hdue]

/-- Witness for C10 on the concrete two-task week. -/
theorem weekly_total_counts_all_witness :
    ([sampleDueA, sampleNoDue] : List Task) ≠ []
    ∧ ((∃ p, weeklyPlanningView "2024-05-01" [sampleDueA, sampleNoDue]
          = p ++ totalLine ([sampleDueA, sampleNoDue] : List Task).length)
      ∧ (∀ t ∈ ([sampleDueA, sampleNoDue] : List Task), t.due = none →
          ∀ date, t ∉ tasksOnDate [sampleDueA, sampleNoDue] date)
      ∧ sectionTaskCount [sampleDueA, sampleNoDue] = 1
      ∧ ([sampleDueA, sampleNoDue] : List Task).length = 2) :=
  ⟨by decide, weekly_total_counts_all "2024-05-01" [sampleDueA, sampleNoDue] (by decide)⟩

/-! ### Helper lemmas about the weekly grouping -/

theorem mem_insertKey (ks : List String) (k0 k : String) :
    k ∈ insertKey ks k0 ↔ k ∈ ks ∨ k = k0 := by
  by_cases h : k0 ∈ ks
  · rw [insertKey, if_pos h]
    constructor
    · exact Or.inl
    · rintro (hk | rfl)
      · exact hk
      · exact h
  · rw [insertKey, if_neg h]
    simp

theorem nodup_insertKey (ks : List String) (k0 : String) (h : ks.Nodup) :
    (insertKey ks k0).Nodup := by
  rw [insertKey]
  split
  · exact h
  · next hne =>
    simp [List.nodup_append, h]
    intro hmem
    exact hne hmem

theorem mem_objectKeys_aux (tasks : List Task) (ks : List String) (k : String) :
    k ∈ tasks.foldl
        (fun ks t =>
          match t.due with
          | some d => insertKey ks d.date
          | none => ks) ks
      ↔ k ∈ ks ∨ ∃ t ∈ tasks, ∃ d, t.due = some d ∧ d.date = k := by
  induction tasks generalizing ks with
  | nil => simp
  | cons t ts ih =>
    rw [List.foldl_cons, ih]
    cases hdue : t.due with
    | none =>
      simp only [hdue, List.mem_cons]
      constructor
      · rintro (hk | ⟨u, hu, hd⟩)
        · exact Or.inl hk
        · exact Or.inr ⟨u, Or.inr hu, hd⟩
      · rintro (hk | ⟨u, hu | hu, hd⟩)
        · exact Or.inl hk
        · rcases hd with ⟨d, hd1, hd2⟩
          rw [hu, hdue] at hd1
          exact absurd hd1 (by simp)
        · exact Or.inr ⟨u, hu, hd⟩
    | some d =>
      rw [mem_insertKey]
      simp only [hdue, List.mem_cons]
      constructor
      · rintro ((hk | rfl) | ⟨u, hu, hd⟩)
        · exact Or.inl hk
        · exact Or.inr ⟨t, Or.inl rfl, d, hdue, rfl⟩
        · exact Or.inr ⟨u, Or.inr hu, hd⟩
      · rintro (hk | ⟨u, hu | hu, hd⟩)
        · exact Or.inl (Or.inl hk)
        · rcases hd with ⟨d2, hd1, hd2⟩
          rw [hu, hdue] at hd1
          cases hd1
          exact Or.inl (Or.inr hd2.symm)
        · exact Or.inr ⟨u, hu, hd⟩

theorem nodup_objectKeys_aux (tasks : List Task) (ks : List String) (h : ks.Nodup) :
    (tasks.foldl
      (fun ks t =>
        match t.due with
        | some d => insertKey ks d.date
        | none => ks) ks).Nodup := by
  induction tasks generalizing ks with
  | nil => exact h
  | cons t ts ih =>
    rw [List.foldl_cons]
    cases hdue : t.due with
    | none => simpa [hdue] using ih ks h
    | some d => simpa [hdue] using ih _ (nodup_insertKey ks d.date h)

theorem mem_objectKeys (tasks : List Task) (k : String) :
    k ∈ objectKeys tasks ↔ ∃ t ∈ tasks, ∃ d, t.due = some d ∧ d.date = k := by
  rw [objectKeys, mem_objectKeys_aux]
  simp

theorem nodup_objectKeys (tasks : List Task) : (objectKeys tasks).Nodup :=
  nodup_objectKeys_aux tasks [] List.nodup_nil

/-- C3: the weekly view's date sections are rendered in ascending
lexicographic order of the calendar-date keys, and this section order
depends only on the set of date keys: permuting the input task list leaves
the section order unchanged. -/
theorem weekly_sections_sorted_input_order_free (tasks : List Task) :
    List.Sorted (· ≤ ·) (sortedDates tasks)
    ∧ ∀ tasks2, tasks.Perm tasks2 → sortedDates tasks = sortedDates tasks2 := by
  constructor
  · exact List.sorted_insertionSort _ _
  · intro tasks2 hp
    have hmem : ∀ k, k ∈ objectKeys tasks ↔ k ∈ objectKeys tasks2 := by
      intro k
      rw [mem_objectKeys, mem_objectKeys]
      constructor
      · rintro ⟨t, ht, hd⟩
        exact ⟨t, hp.mem_iff.mp ht, hd⟩
      · rintro ⟨t, ht, hd⟩
        exact ⟨t, hp.mem_iff.mpr ht, hd⟩
    have hkeys : (objectKeys tasks).Perm (objectKeys tasks2) :=
      (List.perm_ext_iff_of_nodup (nodup_objectKeys tasks) (nodup_objectKeys tasks2)).2 hmem
    have h1 := List.perm_insertionSort (α := String) (· ≤ ·) (objectKeys tasks)
    have h2 := List.perm_insertionSort (α := String) (· ≤ ·) (objectKeys tasks2)
    exact List.eq_of_perm_of_sorted (h1.trans (hkeys.trans h2.symm))
      (List.sorted_insertionSort _ _) (List.sorted_insertionSort _ _)

/-- Witness for C3: the spec's end-to-end scenario — tasks due 2024-05-02
then 2024-05-01 in that order; sections come out ascending, and the
reversed input yields the identical section order. -/
theorem weekly_sections_sorted_input_order_free_witness :
    List.Sorted (· ≤ ·) (sortedDates [sampleDueB, sampleDueA])
    ∧ ([sampleDueB, sampleDueA] : List Task).Perm [sampleDueA, sampleDueB]
    ∧ sortedDates [sampleDueB, sampleDueA] = sortedDates [sampleDueA, sampleDueB]
    ∧ sortedDates [sampleDueB, sampleDueA] = ["2024-05-01", "2024-05-02"] := by
  refine ⟨(weekly_sections_sorted_input_order_free [sampleDueB, sampleDueA]).1,
    List.Perm.swap sampleDueA sampleDueB [],
    (weekly_sections_sorted_input_order_free [sampleDueB, sampleDueA]).2
      [sampleDueA, sampleDueB] (List.Perm.swap sampleDueA sampleDueB []), ?_⟩
  have hobj : objectKeys [sampleDueB, sampleDueA] = ["2024-05-02", "2024-05-01"] := rfl
  have h21 : ¬ ("2024-05-02" : String) ≤ "2024-05-01" := by
    rw [String.le_iff_toList_le]
    decide
  simp [sortedDates, hobj, List.insertionSort, List.orderedInsert, h21]

/-! ### Helper lemmas about the task formatter -/

theorem append_ne_empty (p s : String) (hp : p.length ≠ 0) : p ++ s ≠ "" := by
  intro h
  have hl := congrArg String.length h
  rw [String.length_append] at hl
  have h0 : String.length "" = 0 := rfl
  omega

theorem bullet_ne_empty (a b : String) : "• " ++ a ++ " (ID: " ++ b ++ ")" ≠ "" := by
  intro h
  have hl := congrArg String.length h
  simp only [String.length_append] at hl
  have h2 : ("• " : String).length = 2 := rfl
  have h0 : String.length "" = 0 := rfl
  omega

theorem empty_not_mem_descriptionLines (t : Task) : "" ∉ descriptionLines t := by
  rw [descriptionLines]
  split
  · simp only [List.mem_singleton]
    intro h
    exact append_ne_empty "  Description: " _ (by decide) h.symm
  · simp

theorem empty_not_mem_dueLines (t : Task) : "" ∉ dueLines t := by
  rw [dueLines]
  split
  · simp only [List.mem_singleton]
    intro h
    exact append_ne_empty "  Due: " _ (by decide) h.symm
  · simp

theorem empty_not_mem_priorityLines (t : Task) : "" ∉ priorityLines t := by
  rw [priorityLines]
  split
  · simp only [List.mem_singleton]
    intro h
    exact append_ne_empty "  Priority: " _ (by decide) h.symm
  · simp

theorem empty_not_mem_labelLines (t : Task) : "" ∉ labelLines t := by
  rw [labelLines]
  split
  · simp only [List.mem_singleton]
    intro h
    exact append_ne_empty "  Labels: " _ (by decide) h.symm
  · simp

theorem empty_not_mem_projectLines (t : Task) : "" ∉ projectLines t := by
  rw [projectLines]
  split
  · simp only [List.mem_singleton]
    intro h
    exact append_ne_empty "  Project ID: " _ (by decide) h.symm
  · simp

/-- C7: the task formatter renders the content and id always (the leading
bullet line); any rendered priority line uses the label mapping
`{2: "Low", 3: "Medium", 4: "High"}` with fallback to the raw numeric
value outside the mapping; description, due, labels and project-id lines
are emitted exactly when the corresponding field is present and non-empty;
and no blank line is ever emitted for absent data. -/
theorem format_task_fields (t : Task) :
    (formatTaskParts t).head? = some ("• " ++ t.content ++ " (ID: " ++ t.id ++ ")")
    ∧ (∀ x ∈ priorityLines t, x = "  Priority: " ++ priorityLabel t.priority)
    ∧ priorityLabel 2 = "Low" ∧ priorityLabel 3 = "Medium" ∧ priorityLabel 4 = "High"
    ∧ (∀ p : Nat, p ≠ 2 → p ≠ 3 → p ≠ 4 → priorityLabel p = toString p)
    ∧ (descriptionLines t ≠ [] ↔ t.description ≠ "")
    ∧ (dueLines t ≠ [] ↔ t.due ≠ none)
    ∧ (labelLines t ≠ [] ↔ t.labels ≠ [])
    ∧ (projectLines t ≠ [] ↔ t.projectId ≠ "")
    ∧ "" ∉ formatTaskParts t := by
  refine ⟨rfl, ?_, rfl, rfl, rfl, ?_, ?_, ?_, ?_, ?_, ?_⟩
  · rw [priorityLines]
    split
    · simp
    · simp
  · intro p h2 h3 h4
    simp [priorityLabel, h2, h3, h4]
  · rw [descriptionLines]
    split
    · next h => simp [h]
    · next h => simp [h]
  · cases h : t.due with
    | some d => simp [dueLines, h]
    | none => simp [dueLines, h]
  · rw [labelLines]
    split
    · next h => simp [h]
    · next h => simp [h]
  · rw [projectLines]
    split
    · next h => simp [h]
    · next h => simp [h]
  · intro hmem
    simp only [formatTaskParts, List.mem_append, List.mem_singleton] at hmem
    rcases hmem with ((((hb | hd) | hdue) | hp) | hl) | hpr
    · exact bullet_ne_empty t.content t.id hb.symm
    · exact empty_not_mem_descriptionLines t hd
    · exact empty_not_mem_dueLines t hdue
    · exact empty_not_mem_priorityLines t hp
    · exact empty_not_mem_labelLines t hl
    · exact empty_not_mem_projectLines t hpr

/-- Witness for C7 at a fully-populated task and the out-of-mapping
priority 7. -/
theorem format_task_fields_witness :
    priorityLabel 7 = toString 7
    ∧ (formatTaskParts sampleFull).head?
        = some ("• " ++ sampleFull.content ++ " (ID: " ++ sampleFull.id ++ ")")
    ∧ (descriptionLines sampleFull ≠ [] ↔ sampleFull.description ≠ "")
    ∧ "" ∉ formatTaskParts sampleFull := by
  obtain ⟨h1, h2, h3, h4, h5, h6, h7, h8, h9, h10, h11⟩ := format_task_fields sampleFull
  exact ⟨h6 7 (by decide) (by decide) (by decide), h1, h7, h11⟩

end TodoistMcp
